import Mathlib

/-!
Shallow embedding of the CookShare REST API (express routes over a MySQL
store, repository fatimacanche92-cpu/RecetasAPI).

Each express route handler is embedded as a pure Lean function from an
explicit relational store (the tables declared in `schema.sql`) and a
request body to a response plus the updated store.  Request bodies are
records of `Option` fields (a JSON body may omit any field); JavaScript
truthiness checks (`!x`) are modelled by the `falsy*` helpers.  The
storage engine enforces the constraints declared in `schema.sql`
(NOT NULL columns, the CHECK on `Valoraciones.puntuacion`, foreign keys,
`ON DELETE CASCADE`); a rejected statement is an `Except.error` carrying
the engine message, which the route catch-blocks forward verbatim as a
500 response, exactly as `res.status(500).json({ error: err.message })`
does in every route file.  The bcrypt primitives are opaque parameters
(`hash`, `verify`), as the specification treats them.
-/

namespace CookShare

/-- Truthiness of an optional JSON string value: `undefined` and `""` are falsy. -/
def falsyStr : Option String → Bool
  | none => true
  | some s => s == ""

/-- Truthiness of an optional JSON integer value: `undefined` and `0` are falsy. -/
def falsyNat : Option Nat → Bool
  | none => true
  | some n => n == 0

/-- Truthiness of an optional JSON integer value, signed variant. -/
def falsyInt : Option Int → Bool
  | none => true
  | some k => k == 0

/-- Row of table `Usuarios` (schema.sql): nombre, email, contrasena are NOT NULL. -/
structure Usuario where
  id_usuario : Nat
  nombre : String
  email : String
  contrasena : String
  tipo_usuario : Option String
  fecha_registro : Nat
deriving DecidableEq, Repr

/-- Row of table `Sesiones` (schema.sql): fecha_cierre is NULL while the session is active. -/
structure Sesion where
  id_sesion : Nat
  id_usuario : Option Nat
  fecha_inicio : Nat
  fecha_cierre : Option Nat
deriving DecidableEq, Repr

/-- Row of table `Categorias` (schema.sql): nombre is NOT NULL. -/
structure Categoria where
  id_categoria : Nat
  nombre : String
deriving DecidableEq, Repr

/-- Row of table `Recetas` (schema.sql): titulo is NOT NULL, every other mutable column is nullable. -/
structure Receta where
  id_receta : Nat
  titulo : String
  descripcion : Option String
  tiempo_preparacion : Option Int
  costo : Option Int
  es_publica : Option Bool
  es_premium : Option Bool
  categoria_id : Option Nat
  autor_id : Option Nat
  fecha_creacion : Nat
  fecha_modificacion : Nat
deriving DecidableEq, Repr

/-- Row of table `Autores_Receta` (schema.sql). -/
structure AutorReceta where
  id_receta : Nat
  id_usuario : Nat
  rol : Option String
  permiso_modificar : Option Bool
  fecha_invitacion : Nat
deriving DecidableEq, Repr

/-- Row of table `Ingredientes` (schema.sql): nombre is NOT NULL. -/
structure Ingrediente where
  id_ingrediente : Nat
  nombre : String
  unidad_medida : Option String
deriving DecidableEq, Repr

/-- Row of table `Receta_Ingrediente` (schema.sql). -/
structure RecetaIngrediente where
  id_receta : Nat
  id_ingrediente : Nat
  cantidad : Option Int
deriving DecidableEq, Repr

/-- Row of table `Pasos` (schema.sql). -/
structure Paso where
  id_paso : Nat
  id_receta : Option Nat
  numero_paso : Option Int
  descripcion : Option String
deriving DecidableEq, Repr

/-- Row of table `Valoraciones` (schema.sql): puntuacion carries CHECK (puntuacion BETWEEN 1 AND 5). -/
structure Valoracion where
  id_valoracion : Nat
  id_receta : Option Nat
  id_usuario : Option Nat
  puntuacion : Option Int
  comentario : Option String
  fecha_valoracion : Nat
deriving DecidableEq, Repr

/-- Row of table `Suscripciones` (schema.sql). -/
structure Suscripcion where
  id_suscripcion : Nat
  id_usuario : Option Nat
  fecha_inicio : Nat
  fecha_fin : Option Nat
  monto : Option Int
deriving DecidableEq, Repr

/-- The relational store: one list per table of schema.sql, plus the
AUTO_INCREMENT counters of the tables whose inserts the routes issue. -/
structure Store where
  usuarios : List Usuario
  sesiones : List Sesion
  categorias : List Categoria
  recetas : List Receta
  autoresReceta : List AutorReceta
  ingredientes : List Ingrediente
  recetaIngrediente : List RecetaIngrediente
  pasos : List Paso
  valoraciones : List Valoracion
  suscripciones : List Suscripcion
  nextUsuario : Nat
  nextSesion : Nat
  nextCategoria : Nat
  nextReceta : Nat
  nextValoracion : Nat
deriving DecidableEq, Repr

/-- A store with every table empty. -/
def emptyStore : Store :=
  { usuarios := [], sesiones := [], categorias := [], recetas := [],
    autoresReceta := [], ingredientes := [], recetaIngrediente := [],
    pasos := [], valoraciones := [], suscripciones := [],
    nextUsuario := 1, nextSesion := 1, nextCategoria := 1, nextReceta := 1,
    nextValoracion := 1 }

/-- Shape of the JSON responses the routes emit: `res.status(s).json(body)`
where `body` is either a payload object, `{ mensaje: ... }`,
`{ message: ... }` or `{ error: ... }`. -/
inductive Resp (α : Type) where
  | payload (status : Nat) (body : α)
  | mensajeJson (status : Nat) (mensaje : String)
  | messageJson (status : Nat) (message : String)
  | errorJson (status : Nat) (error : String)
deriving DecidableEq, Repr

/-- Result of running one route handler: the HTTP response, the store
after the request, and whether any INSERT/UPDATE/DELETE statement was
sent to the storage engine. -/
structure Outcome (α : Type) where
  resp : Resp α
  store : Store
  wrote : Bool
deriving DecidableEq, Repr

/-- Foreign-key admissibility of a nullable reference column: NULL is
always admissible, a non-NULL value must be a stored key. -/
def fkOk (v : Option Nat) (keys : List Nat) : Bool :=
  match v with
  | none => true
  | some k => keys.contains k

/-- The CHECK constraint of `Valoraciones.puntuacion`: SQL CHECK accepts NULL. -/
def checkPuntuacion : Option Int → Bool
  | none => true
  | some k => decide (1 ≤ k) && decide (k ≤ 5)

/-! ### Storage-engine statements

One Lean function per parameterized SQL statement the routes issue.
`Except.error` is a statement the engine rejects; its message is the text
the catch-block will forward. -/

/-- INSERT INTO Valoraciones (id_receta, id_usuario, puntuacion, comentario):
the engine enforces the CHECK on puntuacion and both foreign keys. -/
def Store.insertValoracion (s : Store) (now : Nat) (idR idU : Option Nat)
    (p : Option Int) (com : Option String) : Except String (Store × Nat) :=
  if !(checkPuntuacion p) then
    .error "Check constraint valoraciones_chk_1 is violated."
  else if !(fkOk idR (s.recetas.map Receta.id_receta)) then
    .error "Cannot add or update a child row: a foreign key constraint fails (Valoraciones.id_receta)"
  else if !(fkOk idU (s.usuarios.map Usuario.id_usuario)) then
    .error "Cannot add or update a child row: a foreign key constraint fails (Valoraciones.id_usuario)"
  else
    let id := s.nextValoracion
    .ok ({ s with
            valoraciones := s.valoraciones ++
              [{ id_valoracion := id, id_receta := idR, id_usuario := idU,
                 puntuacion := p, comentario := com, fecha_valoracion := now }],
            nextValoracion := id + 1 }, id)

/-- INSERT INTO Recetas (titulo, descripcion, tiempo_preparacion, costo,
es_publica, es_premium, categoria_id, autor_id): titulo is NOT NULL, the
two reference columns carry foreign keys; fecha columns default to NOW(). -/
def Store.insertReceta (s : Store) (now : Nat) (titulo descripcion : Option String)
    (tiempo costo : Option Int) (publica premium : Option Bool)
    (catId autorId : Option Nat) : Except String (Store × Nat) :=
  match titulo with
  | none => .error "Column titulo cannot be null"
  | some t =>
    if !(fkOk catId (s.categorias.map Categoria.id_categoria)) then
      .error "Cannot add or update a child row: a foreign key constraint fails (Recetas.categoria_id)"
    else if !(fkOk autorId (s.usuarios.map Usuario.id_usuario)) then
      .error "Cannot add or update a child row: a foreign key constraint fails (Recetas.autor_id)"
    else
      let id := s.nextReceta
      .ok ({ s with
              recetas := s.recetas ++
                [{ id_receta := id, titulo := t, descripcion := descripcion,
                   tiempo_preparacion := tiempo, costo := costo,
                   es_publica := publica, es_premium := premium,
                   categoria_id := catId, autor_id := autorId,
                   fecha_creacion := now, fecha_modificacion := now }],
              nextReceta := id + 1 }, id)

/-- INSERT INTO Usuarios (nombre, email, contrasena, tipo_usuario):
nombre and email are NOT NULL (contrasena is non-null by construction,
the route always passes a bcrypt hash). -/
def Store.insertUsuario (s : Store) (now : Nat) (nombre email : Option String)
    (hashValue : String) (tipo : Option String) : Except String (Store × Nat) :=
  match nombre, email with
  | some nom, some em =>
    let id := s.nextUsuario
    .ok ({ s with
            usuarios := s.usuarios ++
              [{ id_usuario := id, nombre := nom, email := em,
                 contrasena := hashValue, tipo_usuario := tipo,
                 fecha_registro := now }],
            nextUsuario := id + 1 }, id)
  | none, _ => .error "Column nombre cannot be null"
  | _, none => .error "Column email cannot be null"

/-- INSERT INTO Categorias (nombre): the route validated nombre truthy, so
the NOT NULL column is always satisfied. -/
def Store.insertCategoria (s : Store) (nombre : String) : Store × Nat :=
  let id := s.nextCategoria
  ({ s with categorias := s.categorias ++ [{ id_categoria := id, nombre := nombre }],
            nextCategoria := id + 1 }, id)

/-- INSERT INTO Sesiones (id_usuario): fecha_inicio defaults to NOW(),
fecha_cierre to NULL; the login route passes an existing user id. -/
def Store.insertSesion (s : Store) (now : Nat) (idU : Nat) : Store × Nat :=
  let id := s.nextSesion
  let row : Sesion :=
    { id_sesion := id, id_usuario := some idU, fecha_inicio := now, fecha_cierre := none }
  ({ s with sesiones := s.sesiones ++ [row], nextSesion := id + 1 }, id)

/-- UPDATE Recetas SET titulo=?, descripcion=?, tiempo_preparacion=?, costo=?,
es_publica=?, es_premium=?, categoria_id=?, autor_id=? WHERE id_receta=?.
With no matching row the statement succeeds vacuously; on a matching row
the engine enforces NOT NULL on titulo and the foreign keys, and
fecha_modificacion is stamped (ON UPDATE CURRENT_TIMESTAMP). -/
def Store.updateReceta (s : Store) (now : Nat) (id : Nat)
    (titulo descripcion : Option String) (tiempo costo : Option Int)
    (publica premium : Option Bool) (catId autorId : Option Nat) :
    Except String Store :=
  if (s.recetas.filter (fun r => r.id_receta == id)).isEmpty then .ok s
  else
    match titulo with
    | none => .error "Column titulo cannot be null"
    | some t =>
      if !(fkOk catId (s.categorias.map Categoria.id_categoria)) then
        .error "Cannot add or update a child row: a foreign key constraint fails (Recetas.categoria_id)"
      else if !(fkOk autorId (s.usuarios.map Usuario.id_usuario)) then
        .error "Cannot add or update a child row: a foreign key constraint fails (Recetas.autor_id)"
      else
        .ok { s with recetas := s.recetas.map (fun r =>
          if r.id_receta == id then
            { id_receta := r.id_receta, titulo := t, descripcion := descripcion,
              tiempo_preparacion := tiempo, costo := costo,
              es_publica := publica, es_premium := premium,
              categoria_id := catId, autor_id := autorId,
              fecha_creacion := r.fecha_creacion, fecha_modificacion := now }
          else r) }

/-- UPDATE Valoraciones SET puntuacion=?, comentario=? WHERE id_valoracion=?:
the CHECK on puntuacion applies to the written rows. -/
def Store.updateValoracion (s : Store) (id : Nat) (p : Option Int)
    (com : Option String) : Except String Store :=
  if (s.valoraciones.filter (fun v => v.id_valoracion == id)).isEmpty then .ok s
  else if !(checkPuntuacion p) then
    .error "Check constraint valoraciones_chk_1 is violated."
  else
    .ok { s with valoraciones := s.valoraciones.map (fun v =>
      if v.id_valoracion == id then
        { v with puntuacion := p, comentario := com }
      else v) }

/-- UPDATE Suscripciones SET fecha_fin=?, monto=? WHERE id_suscripcion=?. -/
def Store.updateSuscripcion (s : Store) (id : Nat) (fechaFin : Option Nat)
    (monto : Option Int) : Store :=
  { s with suscripciones := s.suscripciones.map (fun su =>
      if su.id_suscripcion == id then
        { su with fecha_fin := fechaFin, monto := monto }
      else su) }

/-- UPDATE Categorias SET nombre=? WHERE id_categoria=?: the route
validated nombre truthy, so the NOT NULL column is always satisfied. -/
def Store.updateCategoria (s : Store) (id : Nat) (nombre : String) : Store :=
  { s with categorias := s.categorias.map (fun c =>
      if c.id_categoria == id then { c with nombre := nombre } else c) }

/-- UPDATE Pasos SET numero_paso=?, descripcion=? WHERE id_paso=?. -/
def Store.updatePaso (s : Store) (id : Nat) (numero : Option Int)
    (descripcion : Option String) : Store :=
  { s with pasos := s.pasos.map (fun p =>
      if p.id_paso == id then
        { p with numero_paso := numero, descripcion := descripcion }
      else p) }

/-- UPDATE Ingredientes SET nombre=?, unidad_medida=? WHERE id_ingrediente=?:
the route validated nombre truthy, so the NOT NULL column is satisfied. -/
def Store.updateIngrediente (s : Store) (id : Nat) (nombre : String)
    (unidad : Option String) : Store :=
  { s with ingredientes := s.ingredientes.map (fun i =>
      if i.id_ingrediente == id then
        { i with nombre := nombre, unidad_medida := unidad }
      else i) }

/-- UPDATE Usuarios SET nombre=?, email=?, tipo_usuario=? WHERE id_usuario=?
(the no-password branch: the contrasena column is not part of the SET list).
With a matching row the engine enforces NOT NULL on nombre and email. -/
def Store.updateUsuarioSinPass (s : Store) (id : Nat)
    (nombre email tipo : Option String) : Except String Store :=
  if (s.usuarios.filter (fun u => u.id_usuario == id)).isEmpty then .ok s
  else
    match nombre, email with
    | some nom, some em =>
      .ok { s with usuarios := s.usuarios.map (fun u =>
        if u.id_usuario == id then
          { id_usuario := u.id_usuario, nombre := nom, email := em,
            contrasena := u.contrasena, tipo_usuario := tipo,
            fecha_registro := u.fecha_registro }
        else u) }
    | none, _ => .error "Column nombre cannot be null"
    | _, none => .error "Column email cannot be null"

/-- UPDATE Usuarios SET nombre=?, email=?, tipo_usuario=?, contrasena=?
WHERE id_usuario=? (the with-password branch: contrasena receives the
bcrypt hash the route computed). -/
def Store.updateUsuarioConPass (s : Store) (id : Nat)
    (nombre email tipo : Option String) (hashValue : String) :
    Except String Store :=
  if (s.usuarios.filter (fun u => u.id_usuario == id)).isEmpty then .ok s
  else
    match nombre, email with
    | some nom, some em =>
      .ok { s with usuarios := s.usuarios.map (fun u =>
        if u.id_usuario == id then
          { id_usuario := u.id_usuario, nombre := nom, email := em,
            contrasena := hashValue, tipo_usuario := tipo,
            fecha_registro := u.fecha_registro }
        else u) }
    | none, _ => .error "Column nombre cannot be null"
    | _, none => .error "Column email cannot be null"

/-- DELETE FROM Recetas WHERE id_receta=?: every child table of Recetas
declares ON DELETE CASCADE, so deleting a stored recipe also removes its
secondary authors, ingredient links, steps and ratings; deleting a
missing id removes nothing. -/
def Store.deleteReceta (s : Store) (id : Nat) : Store :=
  if s.recetas.any (fun r => r.id_receta == id) then
    { s with
      recetas := s.recetas.filter (fun r => !(r.id_receta == id)),
      autoresReceta := s.autoresReceta.filter (fun a => !(a.id_receta == id)),
      recetaIngrediente := s.recetaIngrediente.filter (fun l => !(l.id_receta == id)),
      pasos := s.pasos.filter (fun p => !(p.id_receta == some id)),
      valoraciones := s.valoraciones.filter (fun v => !(v.id_receta == some id)) }
  else s

/-- DELETE FROM Categorias WHERE id_categoria=?: Recetas.categoria_id has
no ON DELETE clause, so the engine rejects the delete while a stored
recipe references the category. -/
def Store.deleteCategoria (s : Store) (id : Nat) : Except String Store :=
  if s.recetas.any (fun r => r.categoria_id == some id) then
    .error "Cannot delete or update a parent row: a foreign key constraint fails (Recetas.categoria_id)"
  else
    .ok { s with categorias := s.categorias.filter (fun c => !(c.id_categoria == id)) }

/-- DELETE FROM Valoraciones WHERE id_valoracion=?. -/
def Store.deleteValoracion (s : Store) (id : Nat) : Store :=
  { s with valoraciones := s.valoraciones.filter (fun v => !(v.id_valoracion == id)) }

/-! ### Route handlers -/

/-- Request body of POST/PUT /valoraciones. -/
structure ValoracionBody where
  id_receta : Option Nat
  id_usuario : Option Nat
  puntuacion : Option Int
  comentario : Option String
deriving DecidableEq, Repr

/-- Request body of POST/PUT /recetas. -/
structure RecetaBody where
  titulo : Option String
  descripcion : Option String
  tiempo_preparacion : Option Int
  costo : Option Int
  es_publica : Option Bool
  es_premium : Option Bool
  categoria_id : Option Nat
  autor_id : Option Nat
deriving DecidableEq, Repr

/-- Request body of POST/PUT /usuarios. -/
structure UsuarioBody where
  nombre : Option String
  email : Option String
  contrasena : Option String
  tipo_usuario : Option String
deriving DecidableEq, Repr

/-- Request body of POST /sesiones/login. -/
structure LoginBody where
  email : Option String
  contrasena : Option String
deriving DecidableEq, Repr

/-- Success payload of POST /sesiones/login:
`{ id_sesion, id_usuario, mensaje }`. -/
structure SesionCreada where
  id_sesion : Nat
  id_usuario : Nat
  mensaje : String
deriving DecidableEq, Repr

/-- Success payload of POST /usuarios: `{ id, nombre, email, tipo_usuario }`
(the hash is deliberately not echoed). -/
structure UsuarioCreado where
  id : Nat
  nombre : String
  email : String
  tipo_usuario : Option String
deriving DecidableEq, Repr

/-- POST /valoraciones (src/routes/valoraciones.js, router.post("/")):
reject falsy id_receta, id_usuario or puntuacion with 400, otherwise run
the INSERT; a 201 echoes `{ id: insertId, ...req.body }`, an engine
rejection becomes `500 { error: err.message }`. -/
def valoracionesPost (s : Store) (now : Nat) (b : ValoracionBody) :
    Outcome (Nat × ValoracionBody) :=
  if falsyNat b.id_receta || falsyNat b.id_usuario || falsyInt b.puntuacion then
    { resp := .errorJson 400 "id_receta, id_usuario y puntuacion son requeridos",
      store := s, wrote := false }
  else
    match s.insertValoracion now b.id_receta b.id_usuario b.puntuacion b.comentario with
    | .ok (s2, id) => { resp := .payload 201 (id, b), store := s2, wrote := true }
    | .error m => { resp := .errorJson 500 m, store := s, wrote := true }

/-- PUT /valoraciones/:id_valoracion: reject falsy puntuacion with 400,
otherwise run the UPDATE and report 200 without inspecting affectedRows. -/
def valoracionesPut (s : Store) (id : Nat) (b : ValoracionBody) : Outcome Unit :=
  if falsyInt b.puntuacion then
    { resp := .errorJson 400 "La puntuacion es requerida", store := s, wrote := false }
  else
    match s.updateValoracion id b.puntuacion b.comentario with
    | .ok s2 => { resp := .mensajeJson 200 "Valoración actualizada correctamente",
                  store := s2, wrote := true }
    | .error m => { resp := .errorJson 500 m, store := s, wrote := true }

/-- DELETE /valoraciones/:id_valoracion: run the DELETE and report 200
without inspecting affectedRows. -/
def valoracionesDelete (s : Store) (id : Nat) : Outcome Unit :=
  { resp := .mensajeJson 200 "Valoración eliminada correctamente",
    store := s.deleteValoracion id, wrote := true }

/-- POST /recetas (src/routes/recetas.js): no field validation at all; the
INSERT is issued directly and any engine rejection surfaces as 500. -/
def recetasPost (s : Store) (now : Nat) (b : RecetaBody) :
    Outcome (Nat × RecetaBody) :=
  match s.insertReceta now b.titulo b.descripcion b.tiempo_preparacion b.costo
      b.es_publica b.es_premium b.categoria_id b.autor_id with
  | .ok (s2, id) => { resp := .payload 201 (id, b), store := s2, wrote := true }
  | .error m => { resp := .errorJson 500 m, store := s, wrote := true }

/-- PUT /recetas/:id: no field validation; the UPDATE overwrites every
mutable column with the body values and 200 is reported without
inspecting affectedRows. -/
def recetasPut (s : Store) (now : Nat) (id : Nat) (b : RecetaBody) : Outcome Unit :=
  match s.updateReceta now id b.titulo b.descripcion b.tiempo_preparacion b.costo
      b.es_publica b.es_premium b.categoria_id b.autor_id with
  | .ok s2 => { resp := .mensajeJson 200 "Receta actualizada correctamente",
                store := s2, wrote := true }
  | .error m => { resp := .errorJson 500 m, store := s, wrote := true }

/-- DELETE /recetas/:id: run the DELETE and report 200 without inspecting
affectedRows. -/
def recetasDelete (s : Store) (id : Nat) : Outcome Unit :=
  { resp := .mensajeJson 200 "Receta eliminada correctamente",
    store := s.deleteReceta id, wrote := true }

/-- POST /categorias: reject falsy nombre with 400 before the INSERT,
otherwise insert and echo `{ id, nombre }`. -/
def categoriasPost (s : Store) (nombre : Option String) : Outcome (Nat × String) :=
  if falsyStr nombre then
    { resp := .errorJson 400 "El nombre es requerido", store := s, wrote := false }
  else
    let nom := nombre.getD ""
    let r := s.insertCategoria nom
    { resp := .payload 201 (r.2, nom), store := r.1, wrote := true }

/-- PUT /categorias/:id: reject falsy nombre with 400, otherwise run the
UPDATE and report 200 without inspecting affectedRows. -/
def categoriasPut (s : Store) (id : Nat) (nombre : Option String) : Outcome Unit :=
  if falsyStr nombre then
    { resp := .errorJson 400 "El nombre es requerido", store := s, wrote := false }
  else
    { resp := .mensajeJson 200 "Categoría actualizada correctamente",
      store := s.updateCategoria id (nombre.getD ""), wrote := true }

/-- DELETE /categorias/:id: run the DELETE and report 200 without
inspecting affectedRows; an engine rejection (restricting foreign key)
surfaces as 500. -/
def categoriasDelete (s : Store) (id : Nat) : Outcome Unit :=
  match s.deleteCategoria id with
  | .ok s2 => { resp := .mensajeJson 200 "Categoría eliminada correctamente",
                store := s2, wrote := true }
  | .error m => { resp := .errorJson 500 m, store := s, wrote := true }

/-- POST /usuarios (usuarios.js): no field validation; bcrypt.hash rejects
an absent password before any statement is issued, otherwise the hash
(never the plaintext) is inserted and the 201 body omits the hash. -/
def usuariosPost (hash : String → String) (s : Store) (now : Nat)
    (b : UsuarioBody) : Outcome UsuarioCreado :=
  match b.contrasena with
  | none =>
    { resp := .errorJson 500 "data and salt arguments required", store := s, wrote := false }
  | some pw =>
    match s.insertUsuario now b.nombre b.email (hash pw) b.tipo_usuario with
    | .ok (s2, id) =>
      { resp := .payload 201
          { id := id, nombre := b.nombre.getD "", email := b.email.getD "",
            tipo_usuario := b.tipo_usuario },
        store := s2, wrote := true }
    | .error m => { resp := .errorJson 500 m, store := s, wrote := true }

/-- PUT /usuarios/:id (usuarios.js): with a truthy contrasena the route
hashes it and issues the four-column UPDATE; otherwise it issues the
three-column UPDATE that leaves the contrasena column untouched. -/
def usuariosPut (hash : String → String) (s : Store) (id : Nat)
    (b : UsuarioBody) : Outcome Unit :=
  if !(falsyStr b.contrasena) then
    match s.updateUsuarioConPass id b.nombre b.email b.tipo_usuario
        (hash (b.contrasena.getD "")) with
    | .ok s2 => { resp := .messageJson 200 "Usuario actualizado correctamente",
                  store := s2, wrote := true }
    | .error m => { resp := .errorJson 500 m, store := s, wrote := true }
  else
    match s.updateUsuarioSinPass id b.nombre b.email b.tipo_usuario with
    | .ok s2 => { resp := .messageJson 200 "Usuario actualizado correctamente",
                  store := s2, wrote := true }
    | .error m => { resp := .errorJson 500 m, store := s, wrote := true }

/-- POST /sesiones/login (sesiones.js): 400 on falsy email or contrasena;
look the user up by email, 401 `{ error: "Credenciales inválidas" }` when
no row matches; verify the password against the stored hash with the
one-way comparison primitive, the identical 401 on mismatch; on success
insert an Active session and return 201. -/
def sesionesLogin (verify : String → String → Bool) (s : Store) (now : Nat)
    (b : LoginBody) : Outcome SesionCreada :=
  if falsyStr b.email || falsyStr b.contrasena then
    { resp := .errorJson 400 "El email y la contraseña son requeridos",
      store := s, wrote := false }
  else
    match s.usuarios.filter (fun u => u.email == b.email.getD "") with
    | [] => { resp := .errorJson 401 "Credenciales inválidas", store := s, wrote := false }
    | user :: _ =>
      if !(verify (b.contrasena.getD "") user.contrasena) then
        { resp := .errorJson 401 "Credenciales inválidas", store := s, wrote := false }
      else
        let r := s.insertSesion now user.id_usuario
        { resp := .payload 201
            { id_sesion := r.2, id_usuario := user.id_usuario, mensaje := "Sesión iniciada" },
          store := r.1, wrote := true }

/-- POST /sesiones/logout (sesiones.js): 400 on falsy id_sesion; issue
UPDATE Sesiones SET fecha_cierre = NOW() WHERE id_sesion = ? AND
fecha_cierre IS NULL, then 404 when affectedRows is 0, else 200. -/
def sesionesLogout (s : Store) (now : Nat) (idSesion : Option Nat) : Outcome Unit :=
  if falsyNat idSesion then
    { resp := .errorJson 400 "El id_sesion es requerido", store := s, wrote := false }
  else
    let id := idSesion.getD 0
    let affected :=
      (s.sesiones.filter (fun r => r.id_sesion == id && r.fecha_cierre == none)).length
    let s2 := { s with sesiones := s.sesiones.map (fun r =>
      if r.id_sesion == id && r.fecha_cierre == none then
        { r with fecha_cierre := some now }
      else r) }
    if affected == 0 then
      { resp := .mensajeJson 404 "La sesión no existe o ya estaba cerrada",
        store := s2, wrote := true }
    else
      { resp := .mensajeJson 200 "Sesión cerrada correctamente",
        store := s2, wrote := true }

/-- Request body of PUT /suscripciones/:id_suscripcion. -/
structure SuscripcionBody where
  fecha_fin : Option Nat
  monto : Option Int
deriving DecidableEq, Repr

/-- PUT /suscripciones/:id_suscripcion (suscripciones.js): reject falsy
fecha_fin or monto with 400, otherwise run the UPDATE and report 200
without inspecting affectedRows. -/
def suscripcionesPut (s : Store) (id : Nat) (b : SuscripcionBody) : Outcome Unit :=
  if falsyNat b.fecha_fin || falsyInt b.monto then
    { resp := .errorJson 400 "fecha_fin y monto son requeridos", store := s, wrote := false }
  else
    { resp := .mensajeJson 200 "Suscripción actualizada correctamente",
      store := s.updateSuscripcion id b.fecha_fin b.monto, wrote := true }

/-- Request body of PUT /pasos/:id_paso. -/
structure PasoBody where
  numero_paso : Option Int
  descripcion : Option String
deriving DecidableEq, Repr

/-- PUT /pasos/:id_paso (pasos.js): reject falsy numero_paso or
descripcion with 400, otherwise run the UPDATE and report 200 without
inspecting affectedRows. -/
def pasosPut (s : Store) (id : Nat) (b : PasoBody) : Outcome Unit :=
  if falsyInt b.numero_paso || falsyStr b.descripcion then
    { resp := .errorJson 400 "numero_paso y descripcion son requeridos",
      store := s, wrote := false }
  else
    { resp := .mensajeJson 200 "Paso actualizado correctamente",
      store := s.updatePaso id b.numero_paso b.descripcion, wrote := true }

/-- Request body of PUT /ingredientes/:id. -/
structure IngredienteBody where
  nombre : Option String
  unidad_medida : Option String
deriving DecidableEq, Repr

/-- PUT /ingredientes/:id (ingredientes.js): reject falsy nombre with 400,
otherwise run the UPDATE and report 200 without inspecting affectedRows. -/
def ingredientesPut (s : Store) (id : Nat) (b : IngredienteBody) : Outcome Unit :=
  if falsyStr b.nombre then
    { resp := .errorJson 400 "El nombre es requerido", store := s, wrote := false }
  else
    { resp := .mensajeJson 200 "Ingrediente actualizado correctamente",
      store := s.updateIngrediente id (b.nombre.getD "") b.unidad_medida, wrote := true }

/-- Projection returned by GET /usuarios: every column except contrasena. -/
structure UsuarioListado where
  id_usuario : Nat
  nombre : String
  email : String
  tipo_usuario : Option String
  fecha_registro : Nat
deriving DecidableEq, Repr

/-- Projection returned by GET /recetas and GET /recetas/buscar/:termino:
recipe columns joined with the category and author names. -/
structure RecetaListado where
  id_receta : Nat
  titulo : String
  descripcion : Option String
  tiempo_preparacion : Option Int
  costo : Option Int
  es_publica : Option Bool
  es_premium : Option Bool
  categoria : String
  autor : String
deriving DecidableEq, Repr

/-- GET /recetas (recetas.js, router.get("/")), parameterized over the
outcome of the engine query: a thrown engine error is forwarded verbatim
as `500 { error: err.message }`. -/
def recetasGetAll (q : Except String (List RecetaListado)) : Resp (List RecetaListado) :=
  match q with
  | .ok rows => .payload 200 rows
  | .error e => .errorJson 500 e

/-- GET /usuarios (usuarios.js, router.get("/")), parameterized over the
outcome of the engine query: a thrown engine error is forwarded verbatim
as `500 { error: err.message }`. -/
def usuariosGetAll (q : Except String (List UsuarioListado)) : Resp (List UsuarioListado) :=
  match q with
  | .ok rows => .payload 200 rows
  | .error e => .errorJson 500 e

/-! ### GET /recetas/buscar/:termino

The search query of recetas.js:

SELECT DISTINCT projection FROM Recetas r
JOIN Categorias c ON r.categoria_id = c.id_categoria
JOIN Usuarios u ON r.autor_id = u.id_usuario
LEFT JOIN Receta_Ingrediente ri ON r.id_receta = ri.id_receta
LEFT JOIN Ingredientes i ON ri.id_ingrediente = i.id_ingrediente
WHERE r.titulo LIKE pat OR i.nombre LIKE pat  -- pat = the term in percent signs

The per-string matching primitive (LIKE with the pattern built from the
term, under the connection collation) belongs to the external storage
engine, so the embedding takes it as a parameter
`m : String → String → Bool` (`m term s` = does `s LIKE CONCAT(percent,
term, percent)` hold); `likeContains Char.toLower` below is the
case-insensitive-substring instance of it. -/

/-- SQL DISTINCT over an ordered result list: keep the first occurrence
of each row, in result order. -/
def sqlDistinct {α : Type} [DecidableEq α] : List α → List α
  | [] => []
  | x :: xs => x :: sqlDistinct (xs.filter (fun y => y != x))
termination_by l => l.length
decreasing_by
  simp only [List.length_cons]
  exact Nat.lt_succ_of_le (List.length_filter_le _ _)

/-- Rows contributed by the two LEFT JOINs for one recipe: the matching
(link, ingredient) pairs, padded with a NULL row whenever a join level
matches nothing. -/
def leftIngredientes (s : Store) (r : Receta) : List (Option Ingrediente) :=
  let links := s.recetaIngrediente.filter (fun l => l.id_receta == r.id_receta)
  if links.isEmpty then [none]
  else links.flatMap (fun l =>
    let ings := s.ingredientes.filter (fun i => i.id_ingrediente == l.id_ingrediente)
    if ings.isEmpty then [none] else ings.map some)

/-- The `i.nombre LIKE pat` disjunct of the WHERE clause: NULL ingredient
columns (from the LEFT JOIN padding) do not match. -/
def matchIngrediente (m : String → String → Bool) (termino : String) :
    Option Ingrediente → Bool
  | none => false
  | some i => m termino i.nombre

/-- Projected row of the search query for one recipe and its joined
category and author rows. -/
def proyeccion (r : Receta) (c : Categoria) (u : Usuario) : RecetaListado :=
  { id_receta := r.id_receta, titulo := r.titulo, descripcion := r.descripcion,
    tiempo_preparacion := r.tiempo_preparacion, costo := r.costo,
    es_publica := r.es_publica, es_premium := r.es_premium,
    categoria := c.nombre, autor := u.nombre }

/-- The rows of one recipe that survive the WHERE clause: its LEFT-JOIN
rows filtered by `titulo LIKE pat OR i.nombre LIKE pat`. -/
def filasWhere (m : String → String → Bool) (s : Store) (termino : String)
    (r : Receta) : List (Option Ingrediente) :=
  (leftIngredientes s r).filter (fun ing =>
    m termino r.titulo || matchIngrediente m termino ing)

/-- The full join of the search query, filtered by the WHERE clause and
projected, before DISTINCT. -/
def buscarJoinRows (m : String → String → Bool) (s : Store) (termino : String) :
    List RecetaListado :=
  s.recetas.flatMap (fun r =>
    (s.categorias.filter (fun c => r.categoria_id == some c.id_categoria)).flatMap (fun c =>
      (s.usuarios.filter (fun u => r.autor_id == some u.id_usuario)).flatMap (fun u =>
        (filasWhere m s termino r).map (fun _ => proyeccion r c u))))

/-- GET /recetas/buscar/:termino: the DISTINCT filtered join, in the
engine's natural (store) order, with no ORDER BY. -/
def recetasBuscar (m : String → String → Bool) (s : Store) (termino : String) :
    Resp (List RecetaListado) :=
  .payload 200 (sqlDistinct (buscarJoinRows m s termino))

/-- Specification-side predicate: the recipe title matches the term, or
some linked ingredient name does. -/
def tituloOIngredienteCoincide (m : String → String → Bool) (s : Store)
    (termino : String) (r : Receta) : Bool :=
  m termino r.titulo ||
  s.recetaIngrediente.any (fun l => l.id_receta == r.id_receta &&
    s.ingredientes.any (fun i => i.id_ingrediente == l.id_ingrediente && m termino i.nombre))

/-- Specification-side projection of one recipe: its columns joined with
the names of its (unique) category and author rows. -/
def listadoDe (s : Store) (r : Receta) : RecetaListado :=
  { id_receta := r.id_receta, titulo := r.titulo, descripcion := r.descripcion,
    tiempo_preparacion := r.tiempo_preparacion, costo := r.costo,
    es_publica := r.es_publica, es_premium := r.es_premium,
    categoria := ((s.categorias.find? (fun c => r.categoria_id == some c.id_categoria)).map
      Categoria.nombre).getD "",
    autor := ((s.usuarios.find? (fun u => r.autor_id == some u.id_usuario)).map
      Usuario.nombre).getD "" }

/-- Case-folded character sequence of a string. -/
def normStr (fold : Char → Char) (s : String) : List Char :=
  s.data.map fold

/-- Substring containment on character lists. -/
def containsSub (needle hay : List Char) : Bool :=
  hay.tails.any (fun t => needle.isPrefixOf t)

/-- Case-insensitive-substring instance of the LIKE matching primitive:
`s` matches the term when the folded term occurs inside the folded `s`. -/
def likeContains (fold : Char → Char) (termino s : String) : Bool :=
  containsSub (normStr fold termino) (normStr fold s)

/-! ### Concrete data for witnesses, taken from the seed script of schema.sql -/

/-- A concrete stand-in for the opaque one-way hash primitive. -/
def demoHash (p : String) : String :=
  "hashed:" ++ p

/-- A concrete stand-in for the opaque one-way comparison primitive,
matching `demoHash`. -/
def demoVerify (p h : String) : Bool :=
  h == "hashed:" ++ p

/-- Seed user Melani (schema.sql seed data). -/
def usuarioMelani : Usuario :=
  { id_usuario := 1, nombre := "Melani", email := "melani@example.com",
    contrasena := demoHash "password123", tipo_usuario := some "publico",
    fecha_registro := 0 }

/-- Seed category Cena (schema.sql seed data, id 3). -/
def categoriaCena : Categoria :=
  { id_categoria := 3, nombre := "Cena" }

/-- Seed recipe Tacos al Pastor (schema.sql seed data). -/
def recetaTacos : Receta :=
  { id_receta := 1, titulo := "Tacos al Pastor",
    descripcion := some "Receta tradicional con piña y carne marinada",
    tiempo_preparacion := some 30, costo := none, es_publica := some true,
    es_premium := some false, categoria_id := some 3, autor_id := some 1,
    fecha_creacion := 0, fecha_modificacion := 0 }

/-- Seed ingredient Carne de cerdo. -/
def ingredienteCarne : Ingrediente :=
  { id_ingrediente := 1, nombre := "Carne de cerdo", unidad_medida := some "g" }

/-- Seed ingredient Piña. -/
def ingredientePina : Ingrediente :=
  { id_ingrediente := 2, nombre := "Piña", unidad_medida := some "rodajas" }

/-- Seed ingredient Tortilla. -/
def ingredienteTortilla : Ingrediente :=
  { id_ingrediente := 3, nombre := "Tortilla", unidad_medida := some "pieza" }

/-- A store holding the Tacos al Pastor recipe with its author, category,
and three linked ingredients, as in the seed script. -/
def storeTacos : Store :=
  { emptyStore with
    usuarios := [usuarioMelani],
    categorias := [categoriaCena],
    recetas := [recetaTacos],
    ingredientes := [ingredienteCarne, ingredientePina, ingredienteTortilla],
    recetaIngrediente :=
      [{ id_receta := 1, id_ingrediente := 1, cantidad := some 500 },
       { id_receta := 1, id_ingrediente := 2, cantidad := some 3 },
       { id_receta := 1, id_ingrediente := 3, cantidad := some 10 }],
    nextUsuario := 2, nextCategoria := 4, nextReceta := 2 }

/-- A store holding one Active session (id 1) for Melani. -/
def storeSesionActiva : Store :=
  { storeTacos with
    sesiones := [{ id_sesion := 1, id_usuario := some 1, fecha_inicio := 5, fecha_cierre := none }],
    nextSesion := 2 }

/-! ## Theorems -/

/-- Helper: a map that fixes every member of a list is the identity. -/
theorem list_map_self_of_mem {α : Type} (l : List α) (f : α → α)
    (h : ∀ a ∈ l, f a = a) : l.map f = l := by
  induction l with
  | nil => rfl
  | cons x xs ih =>
    simp only [List.map_cons, h x (by simp), List.cons.injEq, true_and]
    exact ih (fun a ha => h a (by simp [ha]))

/-- Helper: two maps agreeing on every member of a list are equal on it. -/
theorem list_map_eq_of_mem {α β : Type} (l : List α) (f g : α → β)
    (h : ∀ a ∈ l, f a = g a) : l.map f = l.map g := by
  induction l with
  | nil => rfl
  | cons x xs ih =>
    simp only [List.map_cons, h x (by simp), List.cons.injEq, true_and]
    exact ih (fun a ha => h a (by simp [ha]))

/-- Claim C5 is false as stated: on a storage-engine failure the GET
/recetas handler forwards the raw engine error text verbatim in the
response body, here an engine message naming a missing table. -/
theorem c5_raw_error_counterexample :
    recetasGetAll (.error "ER_NO_SUCH_TABLE: Table cookshare.Recetas does not exist") =
      .errorJson 500 "ER_NO_SUCH_TABLE: Table cookshare.Recetas does not exist" := rfl

/-- Claim C5 (amended): every storage-engine failure is surfaced to the
caller as a 500 response whose body carries the raw err.message verbatim
— never an opaque safe message: shown for GET /recetas, GET /usuarios and
the POST /valoraciones insert path. -/
theorem c5_error_message_passthrough (m : String) (s : Store) (now : Nat)
    (b : ValoracionBody)
    (hv : (falsyNat b.id_receta || falsyNat b.id_usuario || falsyInt b.puntuacion) = false)
    (he : s.insertValoracion now b.id_receta b.id_usuario b.puntuacion b.comentario = .error m) :
    recetasGetAll (.error m) = .errorJson 500 m ∧
    usuariosGetAll (.error m) = .errorJson 500 m ∧
    (valoracionesPost s now b).resp = .errorJson 500 m := by
  refine ⟨rfl, rfl, ?_⟩
  simp only [valoracionesPost, hv, Bool.false_eq_true, if_false, he]

/-- Witness for the amended C5 theorem at a concrete store and body: a
score of 6 is rejected by the engine CHECK constraint and the engine
message reaches the caller verbatim. -/
theorem c5_error_message_passthrough_witness :
    recetasGetAll (.error "Check constraint valoraciones_chk_1 is violated.") =
      .errorJson 500 "Check constraint valoraciones_chk_1 is violated." ∧
    usuariosGetAll (.error "Check constraint valoraciones_chk_1 is violated.") =
      .errorJson 500 "Check constraint valoraciones_chk_1 is violated." ∧
    (valoracionesPost storeTacos 50
      { id_receta := some 1, id_usuario := some 1, puntuacion := some 6,
        comentario := none }).resp =
      .errorJson 500 "Check constraint valoraciones_chk_1 is violated." :=
  c5_error_message_passthrough
    "Check constraint valoraciones_chk_1 is violated." storeTacos 50
    { id_receta := some 1, id_usuario := some 1, puntuacion := some 6, comentario := none }
    (by decide) rfl

/-- Claim C3 is false as stated: deleting a rating whose id matches no
stored row (affectedRows = 0) reports plain 200 success, not NotFound. -/
theorem c3_delete_missing_counterexample :
    valoracionesDelete emptyStore 7 =
      { resp := .mensajeJson 200 "Valoración eliminada correctamente",
        store := emptyStore, wrote := true } := by
  decide

/-- Claim C3 (amended): no delete route inspects affectedRows — deleting
an identifier that matches no stored row answers 200 with the entity
"deleted correctly" message and leaves the store unchanged, for recipes,
categories and ratings alike. -/
theorem c3_delete_never_inspects_affected_rows (s : Store) (id : Nat)
    (hv : ∀ v ∈ s.valoraciones, v.id_valoracion ≠ id)
    (hr : ∀ r ∈ s.recetas, r.id_receta ≠ id)
    (hc : ∀ c ∈ s.categorias, c.id_categoria ≠ id)
    (hcr : ∀ r ∈ s.recetas, r.categoria_id ≠ some id) :
    valoracionesDelete s id =
      { resp := .mensajeJson 200 "Valoración eliminada correctamente",
        store := s, wrote := true } ∧
    recetasDelete s id =
      { resp := .mensajeJson 200 "Receta eliminada correctamente",
        store := s, wrote := true } ∧
    categoriasDelete s id =
      { resp := .mensajeJson 200 "Categoría eliminada correctamente",
        store := s, wrote := true } := by
  refine ⟨?_, ?_, ?_⟩
  · have hfil : s.valoraciones.filter (fun v => !(v.id_valoracion == id)) = s.valoraciones := by
      apply List.filter_eq_self.mpr
      intro v hvmem
      simp [hv v hvmem]
    simp [valoracionesDelete, Store.deleteValoracion, hfil]
  · have hany : s.recetas.any (fun r => r.id_receta == id) = false := by
      simp only [List.any_eq_false]
      intro r hrmem
      simp [hr r hrmem]
    simp [recetasDelete, Store.deleteReceta, hany]
  · have hany : s.recetas.any (fun r => r.categoria_id == some id) = false := by
      simp only [List.any_eq_false]
      intro r hrmem
      simp [hcr r hrmem]
    have hfil : s.categorias.filter (fun c => !(c.id_categoria == id)) = s.categorias := by
      apply List.filter_eq_self.mpr
      intro c hcmem
      simp [hc c hcmem]
    simp [categoriasDelete, Store.deleteCategoria, hany, hfil]

/-- Witness for the amended C3 theorem: deleting id 7 from the seeded
store touches nothing and still reports success three times. -/
theorem c3_delete_never_inspects_affected_rows_witness :
    valoracionesDelete storeTacos 7 =
      { resp := .mensajeJson 200 "Valoración eliminada correctamente",
        store := storeTacos, wrote := true } ∧
    recetasDelete storeTacos 7 =
      { resp := .mensajeJson 200 "Receta eliminada correctamente",
        store := storeTacos, wrote := true } ∧
    categoriasDelete storeTacos 7 =
      { resp := .mensajeJson 200 "Categoría eliminada correctamente",
        store := storeTacos, wrote := true } :=
  c3_delete_never_inspects_affected_rows storeTacos 7
    (by decide) (by decide) (by decide) (by decide)

/-- Claim C4 is false as stated: creating a recipe with every required
field absent issues the INSERT anyway and surfaces the engine rejection
as a 500 storage error, not a 400 ValidationError before the write. -/
theorem c4_create_missing_field_counterexample :
    recetasPost emptyStore 0
      { titulo := none, descripcion := none, tiempo_preparacion := none,
        costo := none, es_publica := none, es_premium := none,
        categoria_id := none, autor_id := none } =
      { resp := .errorJson 500 "Column titulo cannot be null",
        store := emptyStore, wrote := true } := by
  decide

/-- Claim C4 (amended): only Categoria (like Valoracion, Suscripcion,
Paso, Ingrediente) validates required fields with a 400 before any write;
POST /recetas issues the INSERT unconditionally and a missing titulo
surfaces as a 500 engine rejection after a write was attempted, and POST
/usuarios with no contrasena fails inside the hash primitive with a 500
before any write. -/
theorem c4_create_validation_only_partial (hash : String → String)
    (s : Store) (now : Nat) (b : RecetaBody) (ub : UsuarioBody) (cb : Option String)
    (hb : b.titulo = none) (hub : ub.contrasena = none) (hcb : falsyStr cb = true) :
    recetasPost s now b =
      { resp := .errorJson 500 "Column titulo cannot be null", store := s, wrote := true } ∧
    usuariosPost hash s now ub =
      { resp := .errorJson 500 "data and salt arguments required", store := s, wrote := false } ∧
    categoriasPost s cb =
      { resp := .errorJson 400 "El nombre es requerido", store := s, wrote := false } := by
  refine ⟨?_, ?_, ?_⟩
  · simp [recetasPost, Store.insertReceta, hb]
  · simp [usuariosPost, hub]
  · simp [categoriasPost, hcb]

/-- Witness for the amended C4 theorem at concrete empty bodies. -/
theorem c4_create_validation_only_partial_witness :
    recetasPost storeTacos 0
      { titulo := none, descripcion := none, tiempo_preparacion := none,
        costo := none, es_publica := none, es_premium := none,
        categoria_id := none, autor_id := none } =
      { resp := .errorJson 500 "Column titulo cannot be null",
        store := storeTacos, wrote := true } ∧
    usuariosPost demoHash storeTacos 0
      { nombre := some "Ana", email := some "ana@example.com",
        contrasena := none, tipo_usuario := none } =
      { resp := .errorJson 500 "data and salt arguments required",
        store := storeTacos, wrote := false } ∧
    categoriasPost storeTacos none =
      { resp := .errorJson 400 "El nombre es requerido",
        store := storeTacos, wrote := false } :=
  c4_create_validation_only_partial demoHash storeTacos 0
    { titulo := none, descripcion := none, tiempo_preparacion := none,
      costo := none, es_publica := none, es_premium := none,
      categoria_id := none, autor_id := none }
    { nombre := some "Ana", email := some "ana@example.com",
      contrasena := none, tipo_usuario := none }
    none rfl rfl rfl

/-- Claim C1 is false as stated: a rating with score 6 and valid recipe
and user references is not rejected with a 400 ValidationError before any
write — the INSERT is issued and the engine CHECK rejection surfaces as a
500. -/
theorem c1_score_six_counterexample :
    valoracionesPost storeTacos 50
      { id_receta := some 1, id_usuario := some 1, puntuacion := some 6,
        comentario := none } =
      { resp := .errorJson 500 "Check constraint valoraciones_chk_1 is violated.",
        store := storeTacos, wrote := true } := by
  decide

/-- Claim C1 (amended): score 0 is rejected with a 400 — but only because
0 is falsy in the required-field presence check, not by a range check;
any other out-of-range integer score passes validation, reaches the
storage engine and fails there as a 500 CHECK-constraint rejection after
a write was attempted; scores 1 and 5 with valid, stored references
succeed with 201 and append the row. -/
theorem c1_score_range_behaviour (s : Store) (now : Nat) (b : ValoracionBody)
    (k : Int) (hp : b.puntuacion = some k) :
    (k = 0 → valoracionesPost s now b =
      { resp := .errorJson 400 "id_receta, id_usuario y puntuacion son requeridos",
        store := s, wrote := false }) ∧
    (k ≠ 0 → (k < 1 ∨ 5 < k) →
      falsyNat b.id_receta = false → falsyNat b.id_usuario = false →
      valoracionesPost s now b =
        { resp := .errorJson 500 "Check constraint valoraciones_chk_1 is violated.",
          store := s, wrote := true }) ∧
    ((k = 1 ∨ k = 5) →
      falsyNat b.id_receta = false → falsyNat b.id_usuario = false →
      fkOk b.id_receta (s.recetas.map Receta.id_receta) = true →
      fkOk b.id_usuario (s.usuarios.map Usuario.id_usuario) = true →
      (valoracionesPost s now b).resp = .payload 201 (s.nextValoracion, b) ∧
      (valoracionesPost s now b).wrote = true ∧
      (valoracionesPost s now b).store.valoraciones = s.valoraciones ++
        [{ id_valoracion := s.nextValoracion, id_receta := b.id_receta,
           id_usuario := b.id_usuario, puntuacion := b.puntuacion,
           comentario := b.comentario, fecha_valoracion := now }]) := by
  refine ⟨?_, ?_, ?_⟩
  · intro hk
    have : falsyInt b.puntuacion = true := by simp [falsyInt, hp, hk]
    simp [valoracionesPost, this]
  · intro hk hrange h1 h2
    have hfalsy : falsyInt b.puntuacion = false := by
      simp [falsyInt, hp]
      exact_mod_cast hk
    have hchk : checkPuntuacion b.puntuacion = false := by
      rcases hrange with h | h
      · simp [checkPuntuacion, hp]
        intro h1
        omega
      · simp [checkPuntuacion, hp]
        intro h1
        omega
    simp [valoracionesPost, h1, h2, hfalsy, Store.insertValoracion, hchk]
  · intro hk h1 h2 hfk1 hfk2
    have hfalsy : falsyInt b.puntuacion = false := by
      rcases hk with hk | hk <;> simp [falsyInt, hp, hk]
    have hchk : checkPuntuacion b.puntuacion = true := by
      rcases hk with hk | hk <;> simp [checkPuntuacion, hp, hk]
    refine ⟨?_, ?_, ?_⟩ <;>
      simp [valoracionesPost, h1, h2, hfalsy, Store.insertValoracion, hchk, hfk1, hfk2]

/-- Witness for the amended C1 theorem: score 0 gives the 400, score 6
gives the 500 engine rejection, score 5 gives a 201 that appends the
rating, all on the seeded store. -/
theorem c1_score_range_behaviour_witness :
    valoracionesPost storeTacos 50
      { id_receta := some 1, id_usuario := some 1, puntuacion := some 0,
        comentario := none } =
      { resp := .errorJson 400 "id_receta, id_usuario y puntuacion son requeridos",
        store := storeTacos, wrote := false } ∧
    valoracionesPost storeTacos 50
      { id_receta := some 1, id_usuario := some 1, puntuacion := some 7,
        comentario := none } =
      { resp := .errorJson 500 "Check constraint valoraciones_chk_1 is violated.",
        store := storeTacos, wrote := true } ∧
    (valoracionesPost storeTacos 50
      { id_receta := some 1, id_usuario := some 1, puntuacion := some 5,
        comentario := none }).resp =
      .payload 201 (1, { id_receta := some 1, id_usuario := some 1,
                         puntuacion := some 5, comentario := none }) := by
  refine ⟨?_, ?_, ?_⟩
  · exact (c1_score_range_behaviour storeTacos 50
      { id_receta := some 1, id_usuario := some 1, puntuacion := some 0,
        comentario := none } 0 rfl).1 rfl
  · exact (c1_score_range_behaviour storeTacos 50
      { id_receta := some 1, id_usuario := some 1, puntuacion := some 7,
        comentario := none } 7 rfl).2.1 (by decide) (by decide) (by decide) (by decide)
  · exact ((c1_score_range_behaviour storeTacos 50
      { id_receta := some 1, id_usuario := some 1, puntuacion := some 5,
        comentario := none } 5 rfl).2.2 (by decide) (by decide) (by decide)
      (by decide) (by decide)).1

/-- Claim C10 is false as stated: a recipe update that omits titulo does
not write null into the unmentioned columns — the engine rejects the
full-overwrite UPDATE (titulo is NOT NULL), the route answers 500, and
every stored field survives untouched. -/
theorem c10_partial_update_counterexample :
    recetasPut storeTacos 99 1
      { titulo := none, descripcion := some "Nueva", tiempo_preparacion := none,
        costo := none, es_publica := none, es_premium := none,
        categoria_id := none, autor_id := none } =
      { resp := .errorJson 500 "Column titulo cannot be null",
        store := storeTacos, wrote := true } := by
  decide

/-- Claim C10 (amended): whenever titulo is supplied (and the supplied
references are admissible), PUT /recetas/:id overwrites every one of the
eight mutable columns of each matched row with the request values — a
field omitted from the input is stored as null rather than preserved,
including autor_id — while unmatched rows are untouched. -/
theorem c10_update_overwrites_all_columns (s : Store) (now id : Nat)
    (b : RecetaBody) (t : String) (ht : b.titulo = some t)
    (hc : fkOk b.categoria_id (s.categorias.map Categoria.id_categoria) = true)
    (ha : fkOk b.autor_id (s.usuarios.map Usuario.id_usuario) = true) :
    (recetasPut s now id b).resp = .mensajeJson 200 "Receta actualizada correctamente" ∧
    (∀ r ∈ s.recetas, r.id_receta = id →
      ({ id_receta := r.id_receta, titulo := t, descripcion := b.descripcion,
         tiempo_preparacion := b.tiempo_preparacion, costo := b.costo,
         es_publica := b.es_publica, es_premium := b.es_premium,
         categoria_id := b.categoria_id, autor_id := b.autor_id,
         fecha_creacion := r.fecha_creacion, fecha_modificacion := now } : Receta) ∈
        (recetasPut s now id b).store.recetas) ∧
    (∀ r ∈ s.recetas, r.id_receta ≠ id → r ∈ (recetasPut s now id b).store.recetas) := by
  by_cases hemp : (s.recetas.filter (fun r => r.id_receta == id)).isEmpty = true
  · have hupd : s.updateReceta now id b.titulo b.descripcion b.tiempo_preparacion b.costo
        b.es_publica b.es_premium b.categoria_id b.autor_id = .ok s := by
      simp [Store.updateReceta, hemp]
    have hnomem : ∀ r ∈ s.recetas, r.id_receta ≠ id := by
      intro r hrmem
      have := List.filter_eq_nil_iff.mp (List.isEmpty_iff.mp hemp) r hrmem
      simpa using this
    refine ⟨?_, ?_, ?_⟩
    · simp [recetasPut, hupd]
    · intro r hrmem hrid
      exact absurd hrid (hnomem r hrmem)
    · intro r hrmem _
      simp [recetasPut, hupd]
      exact hrmem
  · have hupd : s.updateReceta now id b.titulo b.descripcion b.tiempo_preparacion b.costo
        b.es_publica b.es_premium b.categoria_id b.autor_id =
        .ok { s with recetas := s.recetas.map (fun r =>
          if r.id_receta == id then
            { id_receta := r.id_receta, titulo := t, descripcion := b.descripcion,
              tiempo_preparacion := b.tiempo_preparacion, costo := b.costo,
              es_publica := b.es_publica, es_premium := b.es_premium,
              categoria_id := b.categoria_id, autor_id := b.autor_id,
              fecha_creacion := r.fecha_creacion, fecha_modificacion := now }
          else r) } := by
      simp [Store.updateReceta, hemp, ht, hc, ha]
    refine ⟨?_, ?_, ?_⟩
    · simp [recetasPut, hupd]
    · intro r hrmem hrid
      simp only [recetasPut, hupd]
      refine List.mem_map.mpr ⟨r, hrmem, ?_⟩
      simp [hrid]
    · intro r hrmem hrid
      simp only [recetasPut, hupd]
      refine List.mem_map.mpr ⟨r, hrmem, ?_⟩
      simp [hrid]

/-- Witness for the amended C10 theorem: an update of the seeded recipe
that supplies only titulo and autor_id null clears descripcion, the
flags, the category and the authorship. -/
theorem c10_update_overwrites_all_columns_witness :
    (recetasPut storeTacos 99 1
      { titulo := some "Tacos", descripcion := none, tiempo_preparacion := none,
        costo := none, es_publica := none, es_premium := none,
        categoria_id := none, autor_id := none }).resp =
      .mensajeJson 200 "Receta actualizada correctamente" ∧
    ({ id_receta := 1, titulo := "Tacos", descripcion := none,
       tiempo_preparacion := none, costo := none, es_publica := none,
       es_premium := none, categoria_id := none, autor_id := none,
       fecha_creacion := 0, fecha_modificacion := 99 } : Receta) ∈
      (recetasPut storeTacos 99 1
        { titulo := some "Tacos", descripcion := none, tiempo_preparacion := none,
          costo := none, es_publica := none, es_premium := none,
          categoria_id := none, autor_id := none }).store.recetas := by
  have h := c10_update_overwrites_all_columns storeTacos 99 1
    { titulo := some "Tacos", descripcion := none, tiempo_preparacion := none,
      costo := none, es_publica := none, es_premium := none,
      categoria_id := none, autor_id := none } "Tacos" rfl (by decide) (by decide)
  exact ⟨h.1, by
    have := h.2.1 recetaTacos (by decide) (by decide)
    simpa using this⟩

/-- Claim C9: every update route reports 200 "updated correctly" even
when the identifier matches no stored row, and leaves the store
unchanged — the affected-row count is never inspected on update — shown
for all seven entities (Recipe, Rating, Subscription, Category, Step,
Ingredient, User). -/
theorem c9_update_missing_id_reports_success (hash : String → String)
    (s : Store) (id now : Nat)
    (rb : RecetaBody) (vb : ValoracionBody) (sb : SuscripcionBody)
    (cb : Option String) (pb : PasoBody) (ib : IngredienteBody) (ub : UsuarioBody)
    (hrec : ∀ r ∈ s.recetas, r.id_receta ≠ id)
    (hval : ∀ v ∈ s.valoraciones, v.id_valoracion ≠ id)
    (hsus : ∀ su ∈ s.suscripciones, su.id_suscripcion ≠ id)
    (hcat : ∀ c ∈ s.categorias, c.id_categoria ≠ id)
    (hpas : ∀ p ∈ s.pasos, p.id_paso ≠ id)
    (hing : ∀ i ∈ s.ingredientes, i.id_ingrediente ≠ id)
    (husr : ∀ u ∈ s.usuarios, u.id_usuario ≠ id)
    (hv1 : falsyInt vb.puntuacion = false)
    (hs1 : falsyNat sb.fecha_fin = false) (hs2 : falsyInt sb.monto = false)
    (hc1 : falsyStr cb = false)
    (hp1 : falsyInt pb.numero_paso = false) (hp2 : falsyStr pb.descripcion = false)
    (hi1 : falsyStr ib.nombre = false) :
    recetasPut s now id rb =
      { resp := .mensajeJson 200 "Receta actualizada correctamente", store := s, wrote := true } ∧
    valoracionesPut s id vb =
      { resp := .mensajeJson 200 "Valoración actualizada correctamente", store := s, wrote := true } ∧
    suscripcionesPut s id sb =
      { resp := .mensajeJson 200 "Suscripción actualizada correctamente", store := s, wrote := true } ∧
    categoriasPut s id cb =
      { resp := .mensajeJson 200 "Categoría actualizada correctamente", store := s, wrote := true } ∧
    pasosPut s id pb =
      { resp := .mensajeJson 200 "Paso actualizado correctamente", store := s, wrote := true } ∧
    ingredientesPut s id ib =
      { resp := .mensajeJson 200 "Ingrediente actualizado correctamente", store := s, wrote := true } ∧
    usuariosPut hash s id ub =
      { resp := .messageJson 200 "Usuario actualizado correctamente", store := s, wrote := true } := by
  have hrecf : (s.recetas.filter (fun r => r.id_receta == id)).isEmpty = true := by
    rw [List.isEmpty_iff, List.filter_eq_nil_iff]
    intro r hr
    simp [hrec r hr]
  have hvalf : (s.valoraciones.filter (fun v => v.id_valoracion == id)).isEmpty = true := by
    rw [List.isEmpty_iff, List.filter_eq_nil_iff]
    intro v hv
    simp [hval v hv]
  have husrf : (s.usuarios.filter (fun u => u.id_usuario == id)).isEmpty = true := by
    rw [List.isEmpty_iff, List.filter_eq_nil_iff]
    intro u hu
    simp [husr u hu]
  refine ⟨?_, ?_, ?_, ?_, ?_, ?_, ?_⟩
  · simp [recetasPut, Store.updateReceta, hrecf]
  · simp [valoracionesPut, hv1, Store.updateValoracion, hvalf]
  · have hupd : s.updateSuscripcion id sb.fecha_fin sb.monto = s := by
      unfold Store.updateSuscripcion
      rw [list_map_self_of_mem _ _ (fun su hsu => by simp [hsus su hsu])]
    simp [suscripcionesPut, hs1, hs2, hupd]
  · have hupd : s.updateCategoria id (cb.getD "") = s := by
      unfold Store.updateCategoria
      rw [list_map_self_of_mem _ _ (fun c hcm => by simp [hcat c hcm])]
    simp [categoriasPut, hc1, hupd]
  · have hupd : s.updatePaso id pb.numero_paso pb.descripcion = s := by
      unfold Store.updatePaso
      rw [list_map_self_of_mem _ _ (fun p hpm => by simp [hpas p hpm])]
    simp [pasosPut, hp1, hp2, hupd]
  · have hupd : s.updateIngrediente id (ib.nombre.getD "") ib.unidad_medida = s := by
      unfold Store.updateIngrediente
      rw [list_map_self_of_mem _ _ (fun i him => by simp [hing i him])]
    simp [ingredientesPut, hi1, hupd]
  · by_cases hpw : falsyStr ub.contrasena = true
    · simp [usuariosPut, hpw, Store.updateUsuarioSinPass, husrf]
    · simp only [Bool.not_eq_true] at hpw
      simp [usuariosPut, hpw, Store.updateUsuarioConPass, husrf]

/-- Witness for the C9 theorem on the seeded store with identifier 9,
which matches nothing in any table. -/
theorem c9_update_missing_id_reports_success_witness :
    recetasPut storeTacos 77 9
      { titulo := some "X", descripcion := none, tiempo_preparacion := none,
        costo := none, es_publica := none, es_premium := none,
        categoria_id := none, autor_id := none } =
      { resp := .mensajeJson 200 "Receta actualizada correctamente",
        store := storeTacos, wrote := true } ∧
    valoracionesPut storeTacos 9
      { id_receta := none, id_usuario := none, puntuacion := some 3, comentario := none } =
      { resp := .mensajeJson 200 "Valoración actualizada correctamente",
        store := storeTacos, wrote := true } ∧
    suscripcionesPut storeTacos 9 { fecha_fin := some 10, monto := some 99 } =
      { resp := .mensajeJson 200 "Suscripción actualizada correctamente",
        store := storeTacos, wrote := true } ∧
    categoriasPut storeTacos 9 (some "Postres") =
      { resp := .mensajeJson 200 "Categoría actualizada correctamente",
        store := storeTacos, wrote := true } ∧
    pasosPut storeTacos 9 { numero_paso := some 1, descripcion := some "Mezclar" } =
      { resp := .mensajeJson 200 "Paso actualizado correctamente",
        store := storeTacos, wrote := true } ∧
    ingredientesPut storeTacos 9 { nombre := some "Sal", unidad_medida := none } =
      { resp := .mensajeJson 200 "Ingrediente actualizado correctamente",
        store := storeTacos, wrote := true } ∧
    usuariosPut demoHash storeTacos 9
      { nombre := some "Ana", email := some "ana@example.com",
        contrasena := none, tipo_usuario := none } =
      { resp := .messageJson 200 "Usuario actualizado correctamente",
        store := storeTacos, wrote := true } :=
  c9_update_missing_id_reports_success demoHash storeTacos 9 77
    { titulo := some "X", descripcion := none, tiempo_preparacion := none,
      costo := none, es_publica := none, es_premium := none,
      categoria_id := none, autor_id := none }
    { id_receta := none, id_usuario := none, puntuacion := some 3, comentario := none }
    { fecha_fin := some 10, monto := some 99 }
    (some "Postres")
    { numero_paso := some 1, descripcion := some "Mezclar" }
    { nombre := some "Sal", unidad_medida := none }
    { nombre := some "Ana", email := some "ana@example.com",
      contrasena := none, tipo_usuario := none }
    (by decide) (by decide) (by decide) (by decide) (by decide) (by decide) (by decide)
    (by decide) (by decide) (by decide) (by decide) (by decide) (by decide) (by decide)

/-- Helper: the three-column user UPDATE (no contrasena in its SET list)
leaves the stored contrasena column of every row unchanged. -/
theorem updateUsuarioSinPass_preserves_contrasena (s : Store) (id : Nat)
    (n e t : Option String) (s2 : Store)
    (h : s.updateUsuarioSinPass id n e t = .ok s2) :
    s2.usuarios.map Usuario.contrasena = s.usuarios.map Usuario.contrasena := by
  unfold Store.updateUsuarioSinPass at h
  by_cases hemp : (s.usuarios.filter (fun u => u.id_usuario == id)).isEmpty = true
  · rw [if_pos hemp] at h
    injection h with h2
    rw [← h2]
  · rw [if_neg hemp] at h
    rcases n with _ | nom <;> rcases e with _ | em
    · cases h
    · cases h
    · cases h
    · injection h with h2
      rw [← h2, List.map_map]
      apply list_map_eq_of_mem
      intro u hu
      by_cases hidu : (u.id_usuario == id) = true
      · simp only [Function.comp_apply, if_pos hidu]
      · simp only [Function.comp_apply, if_neg hidu]

/-- Helper: after the four-column user UPDATE every stored contrasena is
either the written hash value or a previously stored one. -/
theorem updateUsuarioConPass_contrasena_cases (s : Store) (id : Nat)
    (n e t : Option String) (hv : String) (s2 : Store)
    (h : s.updateUsuarioConPass id n e t hv = .ok s2) :
    ∀ c ∈ s2.usuarios.map Usuario.contrasena,
      c = hv ∨ c ∈ s.usuarios.map Usuario.contrasena := by
  unfold Store.updateUsuarioConPass at h
  by_cases hemp : (s.usuarios.filter (fun u => u.id_usuario == id)).isEmpty = true
  · rw [if_pos hemp] at h
    injection h with h2
    rw [← h2]
    exact fun c hc => Or.inr hc
  · rw [if_neg hemp] at h
    rcases n with _ | nom <;> rcases e with _ | em
    · cases h
    · cases h
    · cases h
    · injection h with h2
      rw [← h2, List.map_map]
      intro c hc
      obtain ⟨u, hu, hcu⟩ := List.mem_map.mp hc
      by_cases hidu : (u.id_usuario == id) = true
      · left
        rw [← hcu]
        simp only [Function.comp_apply, if_pos hidu]
      · right
        rw [← hcu]
        simp only [Function.comp_apply, if_neg hidu]
        exact List.mem_map_of_mem Usuario.contrasena hu

/-- Claim C7: a user update without a (truthy) password leaves the
stored password-hash column bit-for-bit unchanged for every row; a user
update with a password persists only its one-way hash — each stored
contrasena afterwards is either the hash of the supplied password or a
value already stored before. -/
theorem c7_user_update_password_hash (hash : String → String) (s : Store)
    (id : Nat) (b : UsuarioBody) :
    (falsyStr b.contrasena = true →
      (usuariosPut hash s id b).store.usuarios.map Usuario.contrasena =
        s.usuarios.map Usuario.contrasena) ∧
    (∀ pw, b.contrasena = some pw → pw ≠ "" →
      ∀ c ∈ (usuariosPut hash s id b).store.usuarios.map Usuario.contrasena,
        c = hash pw ∨ c ∈ s.usuarios.map Usuario.contrasena) := by
  constructor
  · intro hfalsy
    rcases hu : s.updateUsuarioSinPass id b.nombre b.email b.tipo_usuario with m | s2
    · simp [usuariosPut, hfalsy, hu]
    · have hpres := updateUsuarioSinPass_preserves_contrasena s id
        b.nombre b.email b.tipo_usuario s2 hu
      simp [usuariosPut, hfalsy, hu, hpres]
  · intro pw hpw hne
    have hfalsy : falsyStr b.contrasena = false := by simp [falsyStr, hpw, hne]
    have hget : b.contrasena.getD "" = pw := by rw [hpw]; rfl
    rcases hu : s.updateUsuarioConPass id b.nombre b.email b.tipo_usuario
        (hash (b.contrasena.getD "")) with m | s2
    · intro c hc
      right
      simpa [usuariosPut, hfalsy, hu] using hc
    · have hcases := updateUsuarioConPass_contrasena_cases s id
        b.nombre b.email b.tipo_usuario (hash (b.contrasena.getD "")) s2 hu
      intro c hc
      have hc2 : c ∈ s2.usuarios.map Usuario.contrasena := by
        simpa [usuariosPut, hfalsy, hu] using hc
      rcases hcases c hc2 with h | h
      · left
        rw [h, hget]
      · right
        exact h

/-- Witness for the C7 theorem on the seeded store: updating Melani
without a password preserves her stored hash, and updating her with
password "nueva" stores only its hash. -/
theorem c7_user_update_password_hash_witness :
    (usuariosPut demoHash storeTacos 1
      { nombre := some "Melani", email := some "melani@example.com",
        contrasena := none, tipo_usuario := some "premium" }).store.usuarios.map
        Usuario.contrasena =
      storeTacos.usuarios.map Usuario.contrasena ∧
    ∀ c ∈ (usuariosPut demoHash storeTacos 1
      { nombre := some "Melani", email := some "melani@example.com",
        contrasena := some "nueva", tipo_usuario := none }).store.usuarios.map
        Usuario.contrasena,
      c = demoHash "nueva" ∨ c ∈ storeTacos.usuarios.map Usuario.contrasena := by
  constructor
  · exact (c7_user_update_password_hash demoHash storeTacos 1
      { nombre := some "Melani", email := some "melani@example.com",
        contrasena := none, tipo_usuario := some "premium" }).1 rfl
  · exact (c7_user_update_password_hash demoHash storeTacos 1
      { nombre := some "Melani", email := some "melani@example.com",
        contrasena := some "nueva", tipo_usuario := none }).2 "nueva" rfl (by decide)

/-- Claim C2: a login with a registered email but a password that fails
the one-way comparison, and a login with an email belonging to no user,
produce the identical observable outcome — the same 401 response with
body error "Credenciales inválidas", no session row written, the store
untouched. -/
theorem c2_login_no_existence_leak (verify : String → String → Bool) (s : Store)
    (now : Nat) (e1 p1 e2 p2 : String)
    (he1 : e1 ≠ "") (hp1 : p1 ≠ "") (he2 : e2 ≠ "") (hp2 : p2 ≠ "")
    (hex : ∃ u ∈ s.usuarios, u.email = e1)
    (hwrong : ∀ u ∈ s.usuarios, u.email = e1 → verify p1 u.contrasena = false)
    (hnone : ∀ u ∈ s.usuarios, u.email ≠ e2) :
    sesionesLogin verify s now { email := some e1, contrasena := some p1 } =
      { resp := .errorJson 401 "Credenciales inválidas", store := s, wrote := false } ∧
    sesionesLogin verify s now { email := some e2, contrasena := some p2 } =
      { resp := .errorJson 401 "Credenciales inválidas", store := s, wrote := false } := by
  constructor
  · rcases hfil : s.usuarios.filter (fun u => u.email == e1) with _ | ⟨user, rest⟩
    · obtain ⟨u, hu, hue⟩ := hex
      have hmem : u ∈ s.usuarios.filter (fun u => u.email == e1) :=
        List.mem_filter.mpr ⟨hu, by simp [hue]⟩
      rw [hfil] at hmem
      cases hmem
    · have huser : user ∈ s.usuarios ∧ user.email = e1 := by
        have hmem : user ∈ s.usuarios.filter (fun u => u.email == e1) := by
          rw [hfil]
          simp
        rw [List.mem_filter] at hmem
        exact ⟨hmem.1, by simpa using hmem.2⟩
      have hv : verify p1 user.contrasena = false := hwrong user huser.1 huser.2
      simp [sesionesLogin, falsyStr, he1, hp1, hfil, hv]
  · have hfil : s.usuarios.filter (fun u => u.email == e2) = [] := by
      rw [List.filter_eq_nil_iff]
      intro u hu
      simp [hnone u hu]
    simp [sesionesLogin, falsyStr, he2, hp2, hfil]

/-- Witness for the C2 theorem on the seeded store: a wrong password for
Melani and a login for an unknown address produce the same outcome. -/
theorem c2_login_no_existence_leak_witness :
    sesionesLogin demoVerify storeTacos 9
      { email := some "melani@example.com", contrasena := some "wrong" } =
      { resp := .errorJson 401 "Credenciales inválidas", store := storeTacos,
        wrote := false } ∧
    sesionesLogin demoVerify storeTacos 9
      { email := some "nadie@example.com", contrasena := some "x" } =
      { resp := .errorJson 401 "Credenciales inválidas", store := storeTacos,
        wrote := false } :=
  c2_login_no_existence_leak demoVerify storeTacos 9
    "melani@example.com" "wrong" "nadie@example.com" "x"
    (by decide) (by decide) (by decide) (by decide)
    (by decide) (by decide) (by decide)

/-- Claim C6: logging out an Active session stamps its end time and
answers 200; logging the same session out again answers 404 (the session
no longer matches the Active-only UPDATE) and changes nothing — in
particular the stored end time stays exactly the one the first call set. -/
theorem c6_logout_twice (s : Store) (id t1 t2 : Nat) (hid : id ≠ 0)
    (hnodup : (s.sesiones.map Sesion.id_sesion).Nodup)
    (hactive : ∃ r ∈ s.sesiones, r.id_sesion = id ∧ r.fecha_cierre = none) :
    (sesionesLogout s t1 (some id)).resp =
      .mensajeJson 200 "Sesión cerrada correctamente" ∧
    (∀ r ∈ (sesionesLogout s t1 (some id)).store.sesiones,
      r.id_sesion = id → r.fecha_cierre = some t1) ∧
    sesionesLogout (sesionesLogout s t1 (some id)).store t2 (some id) =
      { resp := .mensajeJson 404 "La sesión no existe o ya estaba cerrada",
        store := (sesionesLogout s t1 (some id)).store, wrote := true } := by
  have hfal : falsyNat (some id) = false := by simp [falsyNat, hid]
  obtain ⟨r0, hr0, hr0id, hr0c⟩ := hactive
  have hr0fil : r0 ∈ s.sesiones.filter
      (fun r => r.id_sesion == id && r.fecha_cierre == none) :=
    List.mem_filter.mpr ⟨hr0, by simp [hr0id, hr0c]⟩
  have haff : ((s.sesiones.filter
      (fun r => r.id_sesion == id && r.fecha_cierre == none)).length == 0) = false := by
    have hne := List.ne_nil_of_mem hr0fil
    simp [List.length_eq_zero, hne]
  have hstore1 : (sesionesLogout s t1 (some id)).store =
      { s with sesiones := s.sesiones.map (fun r =>
        if r.id_sesion == id && r.fecha_cierre == none then
          { r with fecha_cierre := some t1 }
        else r) } := by
    simp only [sesionesLogout, hfal, Bool.false_eq_true, if_false, Option.getD_some]
    split <;> rfl
  have hall : ∀ r ∈ (sesionesLogout s t1 (some id)).store.sesiones,
      r.id_sesion = id → r.fecha_cierre = some t1 := by
    rw [hstore1]
    intro r hr hrid
    obtain ⟨u, hu, hfu⟩ := List.mem_map.mp hr
    by_cases hcond : (u.id_sesion == id && u.fecha_cierre == none) = true
    · rw [if_pos hcond] at hfu
      rw [← hfu]
    · rw [if_neg hcond] at hfu
      have huid : u.id_sesion = id := by rw [hfu]; exact hrid
      have hueq : u = r0 :=
        List.inj_on_of_nodup_map hnodup hu hr0 (by
          show u.id_sesion = r0.id_sesion
          rw [huid, hr0id])
      exact absurd hcond (by simp [hueq, hr0id, hr0c])
  refine ⟨?_, hall, ?_⟩
  · simp [sesionesLogout, hfal, haff]
  · have hfil2 : (sesionesLogout s t1 (some id)).store.sesiones.filter
        (fun r => r.id_sesion == id && r.fecha_cierre == none) = [] := by
      rw [List.filter_eq_nil_iff]
      intro r hr hcond
      simp only [Bool.and_eq_true, beq_iff_eq] at hcond
      have := hall r hr hcond.1
      rw [this] at hcond
      exact absurd hcond.2 (by simp)
    have hmap2 : (sesionesLogout s t1 (some id)).store.sesiones.map (fun r =>
        if r.id_sesion == id && r.fecha_cierre == none then
          { r with fecha_cierre := some t2 }
        else r) = (sesionesLogout s t1 (some id)).store.sesiones := by
      apply list_map_self_of_mem
      intro r hr
      by_cases hid2 : (r.id_sesion == id) = true
      · have := hall r hr (by simpa using hid2)
        simp [this]
      · simp [hid2]
    generalize hS1 : (sesionesLogout s t1 (some id)).store = S1 at hfil2 hmap2 ⊢
    simp only [sesionesLogout, hfal, Bool.false_eq_true, if_false, Option.getD_some,
      hfil2, List.length_nil, beq_self_eq_true, if_true, hmap2]

/-- Witness for the C6 theorem on a store holding one Active session:
the first logout closes it at time 11, the second answers 404 and leaves
the end time at 11. -/
theorem c6_logout_twice_witness :
    (sesionesLogout storeSesionActiva 11 (some 1)).resp =
      .mensajeJson 200 "Sesión cerrada correctamente" ∧
    (∀ r ∈ (sesionesLogout storeSesionActiva 11 (some 1)).store.sesiones,
      r.id_sesion = 1 → r.fecha_cierre = some 11) ∧
    sesionesLogout (sesionesLogout storeSesionActiva 11 (some 1)).store 12 (some 1) =
      { resp := .mensajeJson 404 "La sesión no existe o ya estaba cerrada",
        store := (sesionesLogout storeSesionActiva 11 (some 1)).store, wrote := true } :=
  c6_logout_twice storeSesionActiva 1 11 12 (by decide) (by decide) (by decide)

/-- Helper: one-step unfolding of `sqlDistinct` on nil. -/
theorem sqlDistinct_nil {α : Type} [DecidableEq α] :
    sqlDistinct ([] : List α) = [] := by
  rw [sqlDistinct]

/-- Helper: one-step unfolding of `sqlDistinct` on cons. -/
theorem sqlDistinct_cons {α : Type} [DecidableEq α] (x : α) (xs : List α) :
    sqlDistinct (x :: xs) = x :: sqlDistinct (xs.filter (fun y => y != x)) := by
  rw [sqlDistinct]

/-- Helper: a filter whose predicate selects exactly one member of a
duplicate-free list is that singleton. -/
theorem filter_eq_singleton_of_unique {α : Type} (l : List α) (p : α → Bool)
    (a : α) (hnd : l.Nodup) (ha : a ∈ l) (hpa : p a = true)
    (huniq : ∀ x ∈ l, p x = true → x = a) :
    l.filter p = [a] := by
  induction l with
  | nil => cases ha
  | cons x xs ih =>
    rcases List.nodup_cons.mp hnd with ⟨hxnot, hndxs⟩
    by_cases hpx : p x = true
    · have hxa : x = a := huniq x (by simp) hpx
      subst hxa
      have hfil : xs.filter p = [] := by
        rw [List.filter_eq_nil_iff]
        intro y hy hpy
        exact hxnot ((huniq y (by simp [hy]) hpy) ▸ hy)
      simp [List.filter_cons, hpx, hfil]
    · have hax : a ∈ xs := by
        rcases List.mem_cons.mp ha with h | h
        · exact absurd (h ▸ hpa) hpx
        · exact h
      have := ih hndxs hax (fun y hy hpy => huniq y (by simp [hy]) hpy)
      simp [List.filter_cons, hpx, this]

/-- Helper: when a filter yields a singleton, `find?` yields that element. -/
theorem find?_eq_of_filter_eq_singleton {α : Type} (l : List α) (p : α → Bool)
    (a : α) (h : l.filter p = [a]) : l.find? p = some a := by
  induction l with
  | nil => cases h
  | cons x xs ih =>
    by_cases hpx : p x = true
    · rw [List.filter_cons_of_pos hpx] at h
      injection h with h1 _
      rw [List.find?_cons_of_pos _ hpx, h1]
    · rw [List.filter_cons_of_neg (by simpa using hpx)] at h
      rw [List.find?_cons_of_neg _ hpx]
      exact ih h

/-- Helper: flatMaps agreeing on every member of a list are equal on it. -/
theorem list_flatMap_eq_of_mem {α β : Type} (l : List α) (f g : α → List β)
    (h : ∀ a ∈ l, f a = g a) : l.flatMap f = l.flatMap g := by
  induction l with
  | nil => rfl
  | cons x xs ih =>
    simp only [List.flatMap_cons, h x (by simp)]
    rw [ih (fun a ha => h a (by simp [ha]))]

/-- Helper: the LEFT-JOIN row list of a recipe is never empty — a recipe
with no ingredient links still contributes its NULL-padded row. -/
theorem leftIngredientes_ne_nil (s : Store) (r : Receta) :
    leftIngredientes s r ≠ [] := by
  unfold leftIngredientes
  by_cases hl : (s.recetaIngrediente.filter (fun l => l.id_receta == r.id_receta)).isEmpty = true
  · simp [hl]
  · rw [if_neg hl]
    intro hnil
    rw [List.flatMap_eq_nil_iff] at hnil
    rcases hfl : s.recetaIngrediente.filter (fun l => l.id_receta == r.id_receta) with _ | ⟨l0, rest⟩
    · rw [hfl] at hl
      exact hl rfl
    · have := hnil l0 (by rw [hfl]; simp)
      by_cases hi : (s.ingredientes.filter (fun i => i.id_ingrediente == l0.id_ingrediente)).isEmpty = true
      · rw [if_pos hi] at this
        cases this
      · rw [if_neg hi] at this
        rw [List.map_eq_nil_iff] at this
        rw [← List.isEmpty_iff] at this
        exact hi this

/-- Helper: the non-NULL LEFT-JOIN rows of a recipe are exactly its
stored ingredient links joined to stored ingredients. -/
theorem mem_leftIngredientes_some (s : Store) (r : Receta) (i : Ingrediente) :
    some i ∈ leftIngredientes s r ↔
      ∃ l ∈ s.recetaIngrediente, l.id_receta = r.id_receta ∧
        i ∈ s.ingredientes ∧ i.id_ingrediente = l.id_ingrediente := by
  unfold leftIngredientes
  by_cases hl : (s.recetaIngrediente.filter (fun l => l.id_receta == r.id_receta)).isEmpty = true
  · rw [if_pos hl]
    simp only [List.mem_singleton]
    constructor
    · intro h
      cases h
    · rintro ⟨l, hlmem, hlid, _, _⟩
      have : l ∈ s.recetaIngrediente.filter (fun l => l.id_receta == r.id_receta) :=
        List.mem_filter.mpr ⟨hlmem, by simp [hlid]⟩
      rw [List.isEmpty_iff.mp hl] at this
      cases this
  · rw [if_neg hl]
    rw [List.mem_flatMap]
    constructor
    · rintro ⟨l, hlfil, hmem⟩
      rcases List.mem_filter.mp hlfil with ⟨hlmem, hlid⟩
      by_cases hi : (s.ingredientes.filter (fun i => i.id_ingrediente == l.id_ingrediente)).isEmpty = true
      · rw [if_pos hi] at hmem
        simp at hmem
      · rw [if_neg hi] at hmem
        obtain ⟨i2, hi2, heq⟩ := List.mem_map.mp hmem
        injection heq with heq2
        subst heq2
        rcases List.mem_filter.mp hi2 with ⟨himem, hiid⟩
        exact ⟨l, hlmem, by simpa using hlid, himem, by simpa using hiid⟩
    · rintro ⟨l, hlmem, hlid, himem, hiid⟩
      refine ⟨l, List.mem_filter.mpr ⟨hlmem, by simp [hlid]⟩, ?_⟩
      have hifil : i ∈ s.ingredientes.filter (fun i => i.id_ingrediente == l.id_ingrediente) :=
        List.mem_filter.mpr ⟨himem, by simp [hiid]⟩
      have hine : (s.ingredientes.filter (fun i => i.id_ingrediente == l.id_ingrediente)).isEmpty ≠ true := by
        intro hemp
        rw [List.isEmpty_iff.mp hemp] at hifil
        cases hifil
      rw [if_neg hine]
      exact List.mem_map_of_mem some hifil

/-- Helper: a recipe keeps no rows under the WHERE clause exactly when
neither its title nor any linked ingredient name matches the term. -/
theorem filasWhere_eq_nil_iff (m : String → String → Bool) (s : Store)
    (termino : String) (r : Receta) :
    filasWhere m s termino r = [] ↔
      tituloOIngredienteCoincide m s termino r = false := by
  unfold filasWhere tituloOIngredienteCoincide
  by_cases hm : m termino r.titulo = true
  · rw [hm]
    simp only [Bool.true_or]
    constructor
    · intro h
      rw [List.filter_eq_nil_iff] at h
      rcases hLI : leftIngredientes s r with _ | ⟨a, rest⟩
      · exact absurd hLI (leftIngredientes_ne_nil s r)
      · have := h a (by rw [hLI]; simp)
        simp at this
    · intro h
      cases h
  · have hmf : m termino r.titulo = false := by simpa using hm
    rw [hmf]
    simp only [Bool.false_or]
    rw [List.filter_eq_nil_iff]
    constructor
    · intro hfil
      rw [List.any_eq_false]
      intro l hl
      intro hcond
      rw [Bool.and_eq_true] at hcond
      rcases hcond with ⟨hlid, hany⟩
      obtain ⟨i, hi, hib⟩ := List.any_eq_true.mp hany
      rw [Bool.and_eq_true] at hib
      rcases hib with ⟨hiid, him⟩
      have hmem : some i ∈ leftIngredientes s r :=
        (mem_leftIngredientes_some s r i).mpr
          ⟨l, hl, by simpa using hlid, hi, by simpa using hiid⟩
      have := hfil (some i) hmem
      simp [matchIngrediente, him] at this
    · intro hany ing hing
      rcases ing with _ | i
      · simp [matchIngrediente]
      · obtain ⟨l, hl, hlid, hi, hiid⟩ := (mem_leftIngredientes_some s r i).mp hing
        rw [List.any_eq_false] at hany
        have hlcond := hany l hl
        rw [Bool.and_eq_true] at hlcond
        simp only [matchIngrediente]
        intro him
        apply hlcond
        refine ⟨by simp [hlid], ?_⟩
        rw [List.any_eq_true]
        exact ⟨i, hi, by simp [hiid, him]⟩

/-- Helper: `sqlDistinct` of a list of constant blocks, one block per
member of a duplicate-free list with pairwise distinct values, is the
list of values of the nonempty blocks, in order. -/
theorem sqlDistinct_flatMap_const {α γ β : Type} [DecidableEq β]
    (f : α → β) (g : α → List γ) (p : α → Bool) :
    ∀ rs : List α, rs.Nodup →
      (∀ x ∈ rs, ∀ y ∈ rs, f x = f y → x = y) →
      (∀ r ∈ rs, (g r = [] ↔ p r = false)) →
      sqlDistinct (rs.flatMap (fun r => (g r).map (fun _ => f r))) =
        (rs.filter p).map f := by
  intro rs
  induction rs with
  | nil =>
    intro _ _ _
    simp [sqlDistinct_nil]
  | cons r rs ih =>
    intro hnd hinj hp
    rcases List.nodup_cons.mp hnd with ⟨hrnot, hndrs⟩
    have ih2 := ih hndrs (fun x hx y hy => hinj x (by simp [hx]) y (by simp [hy]))
      (fun x hx => hp x (by simp [hx]))
    rcases hgr : g r with _ | ⟨c0, cs⟩
    · have hpr : p r = false := (hp r (by simp)).mp hgr
      simp only [List.flatMap_cons, hgr, List.map_nil, List.nil_append]
      rw [List.filter_cons_of_neg (by simp [hpr]), ih2]
    · have hpr : p r = true := by
        rcases hppr : p r with _ | _
        · exact absurd ((hp r (by simp)).mpr hppr) (by simp [hgr])
        · rfl
      simp only [List.flatMap_cons, hgr, List.map_cons]
      rw [List.cons_append, sqlDistinct_cons]
      have h1 : (cs.map (fun _ => f r)).filter (fun y => y != f r) = [] := by
        rw [List.filter_eq_nil_iff]
        intro b hb
        obtain ⟨_, _, hbe⟩ := List.mem_map.mp hb
        simp [← hbe]
      have h2 : ((rs.flatMap (fun x => (g x).map (fun _ => f x))).filter
          (fun y => y != f r)) = rs.flatMap (fun x => (g x).map (fun _ => f x)) := by
        rw [List.filter_eq_self]
        intro b hb
        obtain ⟨x, hx, hbx⟩ := List.mem_flatMap.mp hb
        obtain ⟨_, _, hbe⟩ := List.mem_map.mp hbx
        have hxr : x ≠ r := fun hxe => hrnot (hxe ▸ hx)
        have hfxr : f x ≠ f r := fun hfe => hxr (hinj x (by simp [hx]) r (by simp) hfe)
        simp [← hbe, hfxr]
      rw [List.filter_append, h1, h2, List.nil_append, ih2,
        List.filter_cons_of_pos (by simp [hpr]), List.map_cons]

/-- Helper: with unique category and user keys and both references of
every recipe stored, the filtered projected join is one constant block
per recipe, whose value is that recipe's `listadoDe` projection. -/
theorem buscarJoinRows_blocks (m : String → String → Bool) (s : Store)
    (termino : String)
    (hc : (s.categorias.map Categoria.id_categoria).Nodup)
    (hu : (s.usuarios.map Usuario.id_usuario).Nodup)
    (hrc : ∀ r ∈ s.recetas, ∃ c ∈ s.categorias, r.categoria_id = some c.id_categoria)
    (hru : ∀ r ∈ s.recetas, ∃ u ∈ s.usuarios, r.autor_id = some u.id_usuario) :
    buscarJoinRows m s termino =
      s.recetas.flatMap (fun r =>
        (filasWhere m s termino r).map (fun _ => listadoDe s r)) := by
  unfold buscarJoinRows
  apply list_flatMap_eq_of_mem
  intro r hr
  obtain ⟨c, hcmem, hcid⟩ := hrc r hr
  obtain ⟨u, humem, huid⟩ := hru r hr
  have hcfil : s.categorias.filter (fun c => r.categoria_id == some c.id_categoria) = [c] := by
    apply filter_eq_singleton_of_unique _ _ _ hc.of_map hcmem (by simp [hcid])
    intro x hx hpx
    have hxid : r.categoria_id = some x.id_categoria := by simpa using hpx
    have hsome : some x.id_categoria = some c.id_categoria := by rw [← hxid, hcid]
    exact List.inj_on_of_nodup_map hc hx hcmem (Option.some.inj hsome)
  have hufil : s.usuarios.filter (fun u => r.autor_id == some u.id_usuario) = [u] := by
    apply filter_eq_singleton_of_unique _ _ _ hu.of_map humem (by simp [huid])
    intro x hx hpx
    have hxid : r.autor_id = some x.id_usuario := by simpa using hpx
    have hsome : some x.id_usuario = some u.id_usuario := by rw [← hxid, huid]
    exact List.inj_on_of_nodup_map hu hx humem (Option.some.inj hsome)
  rw [hcfil, hufil]
  simp only [List.flatMap_cons, List.flatMap_nil, List.append_nil]
  have hproj : proyeccion r c u = listadoDe s r := by
    unfold proyeccion listadoDe
    rw [find?_eq_of_filter_eq_singleton _ _ _ hcfil,
      find?_eq_of_filter_eq_singleton _ _ _ hufil]
    rfl
  rw [hproj]

/-- Claim C8: for any term and any matching primitive for the engine
LIKE operation (the case-insensitive-substring instance being
`likeContains Char.toLower`), the search endpoint returns exactly the
recipes whose title matches the term or that are linked to at least one
matching ingredient, each matching recipe exactly once even when several
of its ingredients match, in the store's natural order with no ranking —
the result is literally the match-filtered recipe list, projected. -/
theorem c8_search_returns_each_match_once (m : String → String → Bool)
    (s : Store) (termino : String)
    (hr : (s.recetas.map Receta.id_receta).Nodup)
    (hc : (s.categorias.map Categoria.id_categoria).Nodup)
    (hu : (s.usuarios.map Usuario.id_usuario).Nodup)
    (hrc : ∀ r ∈ s.recetas, ∃ c ∈ s.categorias, r.categoria_id = some c.id_categoria)
    (hru : ∀ r ∈ s.recetas, ∃ u ∈ s.usuarios, r.autor_id = some u.id_usuario) :
    recetasBuscar m s termino =
      .payload 200 ((s.recetas.filter
        (tituloOIngredienteCoincide m s termino)).map (listadoDe s)) := by
  unfold recetasBuscar
  rw [buscarJoinRows_blocks m s termino hc hu hrc hru]
  rw [sqlDistinct_flatMap_const (listadoDe s) (filasWhere m s termino)
    (tituloOIngredienteCoincide m s termino) s.recetas hr.of_map
    (fun x hx y hy hf =>
      List.inj_on_of_nodup_map hr hx hy (congrArg RecetaListado.id_receta hf))
    (fun r _ => filasWhere_eq_nil_iff m s termino r)]

/-- Witness for the C8 theorem on the seeded store with the
case-insensitive-substring matcher and the term "a": the Tacos al Pastor
recipe matches by title, all three of its join rows survive the WHERE
clause, and it is returned exactly once. -/
theorem c8_search_returns_each_match_once_witness :
    recetasBuscar (likeContains Char.toLower) storeTacos "a" =
      .payload 200 ((storeTacos.recetas.filter
        (tituloOIngredienteCoincide (likeContains Char.toLower) storeTacos "a")).map
        (listadoDe storeTacos)) :=
  c8_search_returns_each_match_once (likeContains Char.toLower) storeTacos "a"
    (by decide) (by decide) (by decide) (by decide) (by decide)

end CookShare

